import Mathlib

/-!
BORC firmware: serial command protocol, configuration store and temperature sensor.

A shallow embedding of `firmware/serialserver.cpp`, `firmware/temphum.cpp` and the two
conversion functions of `firmware/globals.cpp`.

* C++ `float`/`double` values are `FloatVal`: not-a-number, the two infinities, or a finite
  value given by its exact rational.  Arithmetic on finite values is exact (no rounding, so
  the conversions between `double` and `float` are the identity), and comparisons are the IEEE
  ones (every comparison with not-a-number is false).
* Process-wide singletons (`EEPROM`, `TempHum`, the static `sht31`, the serial server's token
  cursor) are the fields of one `Device` record that every handler passes along.
* Everything a handler sends to a collaborator (reply lines, terminal replies, the PID loop,
  `delay`, `System.reboot`, the EEPROM manager) is appended to the trace `Device.out`.
-/

namespace BORC

/-! ## Floating-point values -/

/-- A C++ floating-point value: NaN, plus or minus infinity, or a finite value. -/
inductive FloatVal where
  | nan : FloatVal
  | inf (negative : Bool) : FloatVal
  | val (q : ℚ) : FloatVal
deriving DecidableEq

namespace FloatVal

/-- The C library test `isnan`. -/
def isnan : FloatVal → Bool
  | nan => true
  | _ => false

/-- The value of an `int` converted to floating point. -/
def ofInt (i : Int) : FloatVal := val i

/-- The comparison `x < y`; false as soon as one side is NaN. -/
def lt : FloatVal → FloatVal → Bool
  | nan, _ => false
  | _, nan => false
  | val a, val b => decide (a < b)
  | val _, inf negative => !negative
  | inf negative, val _ => negative
  | inf n, inf m => n && !m

/-- The comparison `x > y`. -/
def gt (x y : FloatVal) : Bool := lt y x

/-- The product `x * y`. -/
def mul : FloatVal → FloatVal → FloatVal
  | nan, _ => nan
  | _, nan => nan
  | val a, val b => val (a * b)
  | val a, inf m => if a = 0 then nan else inf (xor (decide (a < 0)) m)
  | inf n, val b => if b = 0 then nan else inf (xor n (decide (b < 0)))
  | inf n, inf m => inf (xor n m)

/-- The sum `x + y`. -/
def add : FloatVal → FloatVal → FloatVal
  | nan, _ => nan
  | _, nan => nan
  | val a, val b => val (a + b)
  | val _, inf m => inf m
  | inf n, val _ => inf n
  | inf n, inf m => if n = m then inf n else nan

end FloatVal

/-- Truncation of a rational toward zero. -/
def trunc (q : ℚ) : Int := if 0 ≤ q then ⌊q⌋ else ⌈q⌉

/-! ## The configuration record -/

/-- The record `CEEPROM::data_t`, with the fields that `show_nv` and `handle_nvset` use.
`is_servo_calibrated` holds the `int` that `handle_nvset` assigns to it. -/
structure data_t where
  run_mode : Int
  manual_index : Int
  setpoint_f : Int
  orientation : Int
  is_servo_calibrated : Int
  servo_min : Int
  servo_max : Int
  kp : FloatVal
  ki : FloatVal
  kd : FloatVal
deriving DecidableEq

/-- The EEPROM manager object: `data` is the working ("dirty") snapshot that the global
reference `ee` aliases, `clean` the committed snapshot, and `medium` the content of the
durable medium, `none` standing for content that does not validate as a record. -/
structure CEEPROM where
  data : data_t
  clean : data_t
  medium : Option data_t
deriving DecidableEq

/-! ## The sensor -/

/-- The members of `CTempHum` that temphum.cpp uses. -/
structure CTempHum where
  m_is_simulated : Bool
  m_simulated_temp_f : FloatVal
deriving DecidableEq

/-- The hardware sensor behind the static `sht31` object: `readings n` is what the n-th call of
`readTemperature` returns, `taken` counts the calls made so far, `begins` the calls of
`begin`. -/
structure Adafruit_SHT31 where
  readings : Nat → FloatVal
  taken : Nat
  begins : Nat

namespace Adafruit_SHT31

/-- The call `sht31.begin(TEMP_SENSE_ADDRESS)`. -/
def begin (h : Adafruit_SHT31) : Adafruit_SHT31 := { h with begins := h.begins + 1 }

/-- The call `sht31.readTemperature()`: the next raw reading. -/
def readTemperature (h : Adafruit_SHT31) : FloatVal × Adafruit_SHT31 :=
  (h.readings h.taken, { h with taken := h.taken + 1 })

end Adafruit_SHT31

/-! ## What the source takes from outside -/

/-- The parts the source uses without defining them: the C library's `atof`, the width of
`int` and the value a float-to-int conversion yields where the language leaves it undefined,
`CTempHum::simulate_temp_c`, the factory-default record of the EEPROM manager, and the two
run-mode constants of `common.h`. -/
structure Env where
  atof : String → FloatVal
  int_bits : Nat
  int_undef : FloatVal → Int
  simulate_temp_c : FloatVal → CTempHum → CTempHum
  factory : data_t
  MANUAL_MODE : Int
  SETPOINT_MODE : Int

/-- The C++ conversion of a floating-point value to `int`: the value truncated toward zero when
that is representable in `int`, and otherwise whatever the platform yields. -/
def float_to_int (E : Env) (x : FloatVal) : Int :=
  match x with
  | FloatVal.val q =>
    if -((2 : Int) ^ (E.int_bits - 1)) ≤ trunc q ∧ trunc q < (2 : Int) ^ (E.int_bits - 1)
    then trunc q else E.int_undef x
  | _ => E.int_undef x

/-- The function `int c_to_f(float c) {return (c * 1.8) + 32;}` of globals.cpp. -/
def c_to_f (E : Env) (c : FloatVal) : Int :=
  float_to_int E (FloatVal.add (FloatVal.mul c (FloatVal.val (18 / 10))) (FloatVal.val 32))

/-- The function `float f_to_c(int f) {return ((f - 32) * 0.55556);}` of globals.cpp.  The
difference `f - 32` is the exact one, which is the C++ one whenever it is an `int`. -/
def f_to_c (f : Int) : FloatVal :=
  FloatVal.mul (FloatVal.ofInt (f - 32)) (FloatVal.val (55556 / 100000))

namespace CTempHum

/-- The method `CTempHum::read_temp_c` of temphum.cpp. -/
def read_temp_c (h : Adafruit_SHT31) : FloatVal × Adafruit_SHT31 :=
  let h := h.begin
  let r := h.readTemperature
  if r.1.isnan then r.2.readTemperature else r

/-- The method `CTempHum::read_temp_f` of temphum.cpp. -/
def read_temp_f (E : Env) (t : CTempHum) (h : Adafruit_SHT31) : FloatVal × Adafruit_SHT31 :=
  if t.m_is_simulated then (t.m_simulated_temp_f, h)
  else
    let r := read_temp_c h
    if r.1.isnan then r
    else (FloatVal.ofInt (c_to_f E r.1), r.2)

/-- The method `CTempHum::simulate_temp_f` of temphum.cpp. -/
def simulate_temp_f (temperature_f : FloatVal) (_t : CTempHum) : CTempHum :=
  { m_simulated_temp_f := temperature_f
    m_is_simulated :=
      temperature_f.gt (FloatVal.ofInt (-99)) && temperature_f.lt (FloatVal.ofInt 99) }

end CTempHum

/-! ## The serial server -/

/-- The definition `#define FW_VERSION "xxxx"` of changelog.h. -/
def FW_VERSION : String := "xxxx"

/-- An argument handed to a printf-style format: an `int` for `%i`, or for `%s` either a plain
string or the text `strfloat(value, width, digits)`, kept unrendered. -/
inductive Arg where
  | int (i : Int) : Arg
  | str (text : String) : Arg
  | strfloat (value : FloatVal) (width : Nat) (digits : Nat) : Arg
deriving DecidableEq

/-- What a handler sends out, in program order: a reply line (`replyf`), a terminal pass or
fail reply, and the calls `EEPROM.write()`, `EEPROM.destroy()`, `PID.set_constants(...)`,
`delay(ms)` and `System.reboot()`. -/
inductive Event where
  | reply (fmt : String) (args : List Arg) : Event
  | pass (fmt : Option String) (args : List Arg) : Event
  | fail (reason : String) : Event
  | eeprom_write : Event
  | eeprom_destroy : Event
  | pid_set_constants (kp ki kd : FloatVal) : Event
  | delay (ms : Nat) : Event
  | reboot : Event
deriving DecidableEq

/-- A terminal reply is a pass or a fail. -/
def Event.isTerminal : Event → Bool
  | Event.pass _ _ => true
  | Event.fail _ => true
  | _ => false

/-- The whole device as the serial server sees it: the EEPROM manager, the sensor object and
the hardware behind it, the tokens of the current line that the cursor has not consumed yet,
and the trace of everything sent out so far. -/
structure Device where
  EEPROM : CEEPROM
  TempHum : CTempHum
  sht31 : Adafruit_SHT31
  tokens : List String
  out : List Event

/-- Append one event to the trace. -/
def emit (e : Event) (s : Device) : Device := { s with out := s.out ++ [e] }

/-- Modelled from the spec: `replyf` of the serial-server base class (serialserver.h is not
part of the sources) sends one formatted line that is not a terminal reply. -/
def replyf (fmt : String) (args : List Arg) (s : Device) : Device :=
  emit (Event.reply fmt args) s

/-- Modelled from the spec: `pass` of the serial-server base class sends the terminal pass
reply, optionally carrying a formatted payload. -/
def pass (fmt : Option String) (args : List Arg) (s : Device) : Device :=
  emit (Event.pass fmt args) s

/-- Modelled from the spec: `fail_syntax` of the serial-server base class sends the terminal
fail reply with the fixed reason "syntax error". -/
def fail_syntax (s : Device) : Device :=
  emit (Event.fail "syntax error") s

/-- Modelled from the spec: `get_next_token` of the serial-server base class advances the
cursor by one token and hands that token out, or reports that the line has no token left. -/
def get_next_token (s : Device) : Option String × Device :=
  match s.tokens with
  | [] => (none, s)
  | t :: rest => (some t, { s with tokens := rest })

/-- Modelled from the spec: `compare_token` of the serial-server base class (behind the
`token_is` define) is a case-sensitive exact-string match. -/
def compare_token (token : String) (strcon : String) : Bool :=
  token == strcon

/-- Modelled from the spec: `EEPROM.write()` is the store's commit; it writes the whole
working snapshot to the durable medium and then copies working into committed. -/
def CEEPROM.write (e : CEEPROM) : CEEPROM :=
  { data := e.data, clean := e.data, medium := some e.data }

/-- Modelled from the spec: `EEPROM.destroy()` is the store's reset to defaults; it overwrites
the durable medium with the factory record and sets both snapshots to that record. -/
def CEEPROM.destroy (E : Env) (_e : CEEPROM) : CEEPROM :=
  { data := E.factory, clean := E.factory, medium := some E.factory }

/-- Modelled from the spec: the store's load at boot reads the durable medium into both
snapshots; when the content does not validate, both snapshots get the factory defaults and the
medium is left untouched. -/
def CEEPROM.load (E : Env) (e : CEEPROM) : CEEPROM :=
  match e.medium with
  | some r => { data := r, clean := r, medium := some r }
  | none => { data := E.factory, clean := E.factory, medium := none }

/-- The call `EEPROM.write()` as a handler makes it. -/
def EEPROM_write (s : Device) : Device :=
  emit Event.eeprom_write { s with EEPROM := s.EEPROM.write }

/-- The call `EEPROM.destroy()` as a handler makes it. -/
def EEPROM_destroy (E : Env) (s : Device) : Device :=
  emit Event.eeprom_destroy { s with EEPROM := s.EEPROM.destroy E }

/-- The call `PID.set_constants(ee.kp, ee.ki, ee.kd)`, its arguments read from the working
snapshot at the time of the call. -/
def PID_set_constants (s : Device) : Device :=
  emit (Event.pid_set_constants s.EEPROM.data.kp s.EEPROM.data.ki s.EEPROM.data.kd) s

/-- The method `CSerialServer::handle_fwrev`. -/
def handle_fwrev (s : Device) : Device :=
  pass (some FW_VERSION) [] s

/-- The method `CSerialServer::handle_temp`. -/
def handle_temp (E : Env) (s : Device) : Device :=
  let r := CTempHum.read_temp_c s.sht31
  let temp_c := r.1
  let s := { s with sht31 := r.2 }
  let temp_f := c_to_f E temp_c
  pass (some "%s %i") [Arg.strfloat temp_c 0 2, Arg.int temp_f] s

/-- The method `CSerialServer::handle_sim`. -/
def handle_sim (E : Env) (s : Device) : Device :=
  match get_next_token s with
  | (none, s) => fail_syntax s
  | (some token, s) =>
    if compare_token token "temp" then
      match get_next_token s with
      | (none, s) => fail_syntax s
      | (some token, s) =>
        let temp_c := E.atof token
        let s := { s with TempHum := E.simulate_temp_c temp_c s.TempHum }
        pass none [] s
    else fail_syntax s

/-- The method `CSerialServer::show_nv`, applied to the snapshot `ee`. -/
def show_nv (E : Env) (ee : data_t) (s : Device) : Device :=
  let s :=
    if ee.run_mode = E.MANUAL_MODE then replyf "run_mode           : 0 - MANUAL" [] s
    else if ee.run_mode = E.SETPOINT_MODE then replyf "run_mode           : 2 - SETPOINT" [] s
    else replyf "run_mode           : %i" [Arg.int ee.run_mode] s
  let s := replyf "manual_index       : %i" [Arg.int ee.manual_index] s
  let s := replyf "setpoint           : %i" [Arg.int ee.setpoint_f] s
  let s := replyf "orientation        : %i" [Arg.int ee.orientation] s
  let s := replyf "is_servo_cal       : %i" [Arg.int ee.is_servo_calibrated] s
  let s := replyf "servo_min          : %i" [Arg.int ee.servo_min] s
  let s := replyf "servo_max          : %i" [Arg.int ee.servo_max] s
  let s := replyf "kp                 : %s" [Arg.strfloat ee.kp 0 3] s
  let s := replyf "ki                 : %s" [Arg.strfloat ee.ki 0 3] s
  replyf "kd                 : %s" [Arg.strfloat ee.kd 0 3] s

/-- The method `CSerialServer::handle_nv`. -/
def handle_nv (E : Env) (s : Device) : Device :=
  match get_next_token s with
  | (none, s) => pass none [] (show_nv E s.EEPROM.clean s)
  | (some token, s) =>
    if compare_token token "dirty" then pass none [] (show_nv E s.EEPROM.data s)
    else if compare_token token "destroy" then pass none [] (EEPROM_destroy E s)
    else fail_syntax s

/-- The method `CSerialServer::handle_reboot`. -/
def handle_reboot (s : Device) : Device :=
  let s := pass none [] s
  let s := emit (Event.delay 500) s
  emit Event.reboot s

/-- The eleven lines of `CSerialServer::handle_help`, in the order they are sent. -/
def help_lines : List String :=
  [ "ee                          - Displays EEPROM contents",
    "ee dirty                    - Displays EEPROM shadow RAM",
    "ee destroy                  - Erases EEPROM",
    "fwrev                       - Displays firmware revision",
    "reboot                      - Soft reboots device",
    "eeset kp <value>            - Saves PID P constant to EEPROM",
    "eeset ki <value>            - Saves PID I constant to EEPROM",
    "eeset kd <value>            - Saves PID D constant to EEPROM",
    "eeset is_servocal <value>   - Saves servo calibration flag",
    "sim temp <deg_C>            - Simulates the room temperature",
    "temp                        - Reports the room temperature" ]

/-- The method `CSerialServer::handle_help`. -/
def handle_help (s : Device) : Device :=
  pass none [] (help_lines.foldl (fun s line => replyf line [] s) s)

/-- The working snapshot after the assignment `ee.kp = fvalue`, and likewise below. -/
def set_kp (fvalue : FloatVal) (s : Device) : Device :=
  { s with EEPROM := { s.EEPROM with data := { s.EEPROM.data with kp := fvalue } } }

/-- The assignment `ee.ki = fvalue`. -/
def set_ki (fvalue : FloatVal) (s : Device) : Device :=
  { s with EEPROM := { s.EEPROM with data := { s.EEPROM.data with ki := fvalue } } }

/-- The assignment `ee.kd = fvalue`. -/
def set_kd (fvalue : FloatVal) (s : Device) : Device :=
  { s with EEPROM := { s.EEPROM with data := { s.EEPROM.data with kd := fvalue } } }

/-- The assignment `ee.is_servo_calibrated = int(fvalue)`. -/
def set_is_servo_calibrated (E : Env) (fvalue : FloatVal) (s : Device) : Device :=
  { s with EEPROM := { s.EEPROM with data :=
      { s.EEPROM.data with is_servo_calibrated := float_to_int E fvalue } } }

/-- The method `CSerialServer::handle_nvset`. -/
def handle_nvset (E : Env) (s : Device) : Device :=
  match get_next_token s with
  | (none, s) => fail_syntax s
  | (some name, s) =>
    match get_next_token s with
    | (none, s) => fail_syntax s
    | (some value, s) =>
      let fvalue := E.atof value
      let token := name
      if compare_token token "kp" then
        pass none [] (PID_set_constants (EEPROM_write (set_kp fvalue s)))
      else if compare_token token "ki" then
        pass none [] (PID_set_constants (EEPROM_write (set_ki fvalue s)))
      else if compare_token token "kd" then
        pass none [] (PID_set_constants (EEPROM_write (set_kd fvalue s)))
      else if compare_token token "is_servocal" then
        pass none [] (EEPROM_write (set_is_servo_calibrated E fvalue s))
      else fail_syntax s

/-- The method `CSerialServer::on_command`: `token` is the first token of the line, the
remaining tokens of the line are `s.tokens`. -/
def on_command (E : Env) (token : String) (s : Device) : Device :=
  if compare_token token "fwrev" then handle_fwrev s
  else if compare_token token "nv" then handle_nv E s
  else if compare_token token "ee" then handle_nv E s
  else if compare_token token "reboot" then handle_reboot s
  else if compare_token token "help" then handle_help s
  else if compare_token token "nvset" then handle_nvset E s
  else if compare_token token "eeset" then handle_nvset E s
  else if compare_token token "sim" then handle_sim E s
  else if compare_token token "temp" then handle_temp E s
  else fail_syntax s

/-- Modelled from the spec: the engine splits a line into tokens, the first token selects the
command and the cursor stands on the tokens after it. -/
def on_line (E : Env) (line : List String) (s : Device) : Device :=
  match line with
  | [] => s
  | token :: rest => on_command E token { s with tokens := rest }

/-! ## Classes of command lines -/

/-- The command names that `on_command` compares the first token with. -/
def command_table : List String :=
  ["fwrev", "nv", "ee", "reboot", "help", "nvset", "eeset", "sim", "temp"]

/-- The line is an `nvset`/`eeset` with a field name among kp, ki, kd, is_servocal and a value
token, which is when `handle_nvset` commits. -/
def is_field_set (token : String) (args : List String) : Bool :=
  (token == "nvset" || token == "eeset") &&
    match args with
    | name :: _ :: _ => name == "kp" || name == "ki" || name == "kd" || name == "is_servocal"
    | _ => false

/-- The line is `nv destroy` or `ee destroy`. -/
def is_destroy (token : String) (args : List String) : Bool :=
  (token == "nv" || token == "ee") &&
    match args with
    | sub :: _ => sub == "destroy"
    | [] => false

/-- Modelled from the spec: the engine processes one line to completion before it accepts the
next, so a sequence of lines is handled from left to right. -/
def run_lines (E : Env) (lines : List (List String)) (s : Device) : Device :=
  lines.foldl (fun s line => on_line E line s) s

/-- What one call of `handle_nvset` appends to the trace. -/
def nvset_sent (E : Env) (s : Device) : List Event :=
  (handle_nvset E s).out.drop s.out.length

/-! ## The dump as the spec words it -/

/-- The run mode of the spec's data model: Manual, Setpoint, or any other raw integer. -/
inductive RunMode where
  | Manual : RunMode
  | Setpoint : RunMode
  | Other (raw : Int) : RunMode
deriving DecidableEq

/-- The spec's decoding of the persisted raw integer into a run mode. -/
def decode_run_mode (E : Env) (raw : Int) : RunMode :=
  if raw = E.MANUAL_MODE then RunMode.Manual
  else if raw = E.SETPOINT_MODE then RunMode.Setpoint
  else RunMode.Other raw

/-- The dump line of a run mode: the symbolic label for Manual and Setpoint, the raw integer
for every other value. -/
def run_mode_line : RunMode → Event
  | RunMode.Manual => Event.reply "run_mode           : 0 - MANUAL" []
  | RunMode.Setpoint => Event.reply "run_mode           : 2 - SETPOINT" []
  | RunMode.Other raw => Event.reply "run_mode           : %i" [Arg.int raw]

/-- The spec's `dump` of one snapshot: ten lines in a fixed order, a function of the snapshot
alone, the three PID constants formatted with 3 decimal digits. -/
def dump_spec (E : Env) (ee : data_t) : List Event :=
  [ run_mode_line (decode_run_mode E ee.run_mode),
    Event.reply "manual_index       : %i" [Arg.int ee.manual_index],
    Event.reply "setpoint           : %i" [Arg.int ee.setpoint_f],
    Event.reply "orientation        : %i" [Arg.int ee.orientation],
    Event.reply "is_servo_cal       : %i" [Arg.int ee.is_servo_calibrated],
    Event.reply "servo_min          : %i" [Arg.int ee.servo_min],
    Event.reply "servo_max          : %i" [Arg.int ee.servo_max],
    Event.reply "kp                 : %s" [Arg.strfloat ee.kp 0 3],
    Event.reply "ki                 : %s" [Arg.strfloat ee.ki 0 3],
    Event.reply "kd                 : %s" [Arg.strfloat ee.kd 0 3] ]

/-! ## Sample surroundings, used to evaluate the definitions on concrete inputs -/

/-- Modelled from the spec: `CTempHum::simulate_temp_c` is called by `handle_sim` and is not
defined in temphum.cpp.  The override is kept in the one member the class has for it, and
simulation stops when the requested value, in the native unit of the sensor, lies outside the
band from -99 to 99. -/
def CTempHum.simulate_temp_c (temp_c : FloatVal) (_t : CTempHum) : CTempHum :=
  { m_simulated_temp_f := FloatVal.add (FloatVal.mul temp_c (FloatVal.val (18 / 10))) (FloatVal.val 32)
    m_is_simulated := temp_c.gt (FloatVal.ofInt (-99)) && temp_c.lt (FloatVal.ofInt 99) }

/-- The value of `atof` on the tokens used in the examples below.  Every other token is given
the value zero here, which is what `atof` returns for text without a leading number. -/
def sample_atof (token : String) : FloatVal :=
  if token = "72.5" then FloatVal.val (145 / 2)
  else if token = "150" then FloatVal.val 150
  else if token = "1.250" then FloatVal.val (5 / 4)
  else if token = "0.9" then FloatVal.val (9 / 10)
  else if token = "1" then FloatVal.val 1
  else FloatVal.val 0

/-- A sample configuration record. -/
def sample_record : data_t :=
  { run_mode := 0, manual_index := 3, setpoint_f := 70, orientation := 1,
    is_servo_calibrated := 1, servo_min := 100, servo_max := 900,
    kp := FloatVal.val 10, ki := FloatVal.val (1 / 2), kd := FloatVal.val 0 }

/-- A sample factory-default record. -/
def sample_factory : data_t :=
  { run_mode := 0, manual_index := 0, setpoint_f := 72, orientation := 0,
    is_servo_calibrated := 0, servo_min := 0, servo_max := 0,
    kp := FloatVal.val 1, ki := FloatVal.val 0, kd := FloatVal.val 0 }

/-- Sample surroundings: a 16-bit `int`, zero for an undefined conversion. -/
def sample_env : Env :=
  { atof := sample_atof, int_bits := 16, int_undef := fun _ => 0,
    simulate_temp_c := CTempHum.simulate_temp_c, factory := sample_factory,
    MANUAL_MODE := 0, SETPOINT_MODE := 2 }

/-- A sample hardware sensor that reads 20 degrees Celsius every time. -/
def sample_sht31 : Adafruit_SHT31 :=
  { readings := fun _ => FloatVal.val 20, taken := 0, begins := 0 }

/-- A sample device: working and committed snapshots and the medium hold `sample_record`,
the sensor is not simulating, and nothing has been sent yet. -/
def sample_device : Device :=
  { EEPROM := { data := sample_record, clean := sample_record, medium := some sample_record },
    TempHum := { m_is_simulated := false, m_simulated_temp_f := FloatVal.val 0 },
    sht31 := sample_sht31, tokens := [], out := [] }

/-- A sample hardware sensor that fails, reading NaN every time. -/
def sample_sht31_failing : Adafruit_SHT31 :=
  { readings := fun _ => FloatVal.nan, taken := 0, begins := 0 }

/-- The sample surroundings with `atof` extended to the token `65536`, a value that a 16-bit
`int` cannot hold. -/
def sample_env_large : Env :=
  { sample_env with
    atof := fun token => if token = "65536" then FloatVal.val 65536 else sample_atof token }

/-! ## Basic facts about the building blocks -/

theorem compare_token_iff (a b : String) : compare_token a b = true ↔ a = b := by
  simp [compare_token]

/-! ## Setting a field and committing it -/

/-- C1 (counterexample): after `nvset is_servocal 0.9` the working snapshot's field holds 0,
which is not the parsed value 0.9. -/
theorem nvset_is_servocal_stores_truncation :
    (on_command sample_env "nvset"
        { sample_device with tokens := ["is_servocal", "0.9"] }).EEPROM.data.is_servo_calibrated = 0
      ∧ FloatVal.ofInt (on_command sample_env "nvset"
        { sample_device with tokens := ["is_servocal", "0.9"] }).EEPROM.data.is_servo_calibrated
        ≠ sample_env.atof "0.9" := by
  have h : (on_command sample_env "nvset"
        { sample_device with tokens := ["is_servocal", "0.9"] }).EEPROM.data.is_servo_calibrated
        = 0 := by
    simp [on_command, compare_token, handle_nvset, get_next_token, pass, emit, EEPROM_write,
      set_is_servo_calibrated, CEEPROM.write, float_to_int, sample_env, sample_atof, trunc]
    norm_num
  refine ⟨h, ?_⟩
  rw [h]
  simp [FloatVal.ofInt, sample_env, sample_atof]
  norm_num

/-- C1 (amended): for every store state, every field name among kp, ki, kd, is_servocal and
every value token, after `on_command` handles `nvset <field> <value>` (or `eeset`), the working
snapshot's field equals the parsed value for kp, ki and kd and the float-to-int conversion of
the parsed value for is_servocal; the committed snapshot equals the working snapshot, a reload
from the durable medium yields that same record in both snapshots, and the one terminal reply
is a pass. -/
theorem nvset_commits (E : Env) (s : Device) (cmd name value : String) (rest : List String)
    (hcmd : cmd = "nvset" ∨ cmd = "eeset")
    (hname : name = "kp" ∨ name = "ki" ∨ name = "kd" ∨ name = "is_servocal") :
    let s' := on_command E cmd { s with tokens := name :: value :: rest }
    (name = "kp" → s'.EEPROM.data.kp = E.atof value) ∧
    (name = "ki" → s'.EEPROM.data.ki = E.atof value) ∧
    (name = "kd" → s'.EEPROM.data.kd = E.atof value) ∧
    (name = "is_servocal" →
      s'.EEPROM.data.is_servo_calibrated = float_to_int E (E.atof value)) ∧
    s'.EEPROM.clean = s'.EEPROM.data ∧
    (s'.EEPROM.load E).data = s'.EEPROM.data ∧
    (s'.EEPROM.load E).clean = s'.EEPROM.data ∧
    ∃ sent, s'.out = s.out ++ sent ∧ sent.filter Event.isTerminal = [Event.pass none []] := by
  rcases hcmd with rfl | rfl <;> rcases hname with rfl | rfl | rfl | rfl <;>
    simp [on_command, compare_token, handle_nvset, get_next_token, pass, emit, EEPROM_write,
      PID_set_constants, set_kp, set_ki, set_kd, set_is_servo_calibrated, CEEPROM.write,
      CEEPROM.load, Event.isTerminal]

/-- C1 (witness): `nvset kp 1.250` on the sample device. -/
theorem nvset_commits_witness :
    ("nvset" = "nvset" ∨ "nvset" = "eeset") ∧
    ("kp" = "kp" ∨ "kp" = "ki" ∨ "kp" = "kd" ∨ "kp" = "is_servocal") ∧
    (on_command sample_env "nvset"
        { sample_device with tokens := ["kp", "1.250"] }).EEPROM.data.kp
      = sample_env.atof "1.250" ∧
    (on_command sample_env "nvset"
        { sample_device with tokens := ["kp", "1.250"] }).EEPROM.clean
      = (on_command sample_env "nvset"
        { sample_device with tokens := ["kp", "1.250"] }).EEPROM.data :=
  ⟨Or.inl rfl, Or.inl rfl,
    (nvset_commits sample_env sample_device "nvset" "kp" "1.250" []
      (Or.inl rfl) (Or.inl rfl)).1 rfl,
    (nvset_commits sample_env sample_device "nvset" "kp" "1.250" []
      (Or.inl rfl) (Or.inl rfl)).2.2.2.2.1⟩

/-- C2: for every store state, an `nvset`/`eeset` line without a field name, without a value,
or naming a field other than kp, ki, kd, is_servocal sends exactly one event, the fail reply
with reason "syntax error" (so no control-loop notification), and leaves the working snapshot,
the committed snapshot and the durable medium unchanged. -/
theorem nvset_syntax_error (E : Env) (s : Device) (cmd : String) (args : List String)
    (hcmd : cmd = "nvset" ∨ cmd = "eeset")
    (hargs : args = [] ∨ (∃ name, args = [name]) ∨
      (∃ name value rest, args = name :: value :: rest ∧
        name ≠ "kp" ∧ name ≠ "ki" ∧ name ≠ "kd" ∧ name ≠ "is_servocal")) :
    (on_command E cmd { s with tokens := args }).out = s.out ++ [Event.fail "syntax error"] ∧
    (on_command E cmd { s with tokens := args }).EEPROM = s.EEPROM := by
  rcases hcmd with rfl | rfl <;>
    rcases hargs with rfl | ⟨name, rfl⟩ | ⟨name, value, rest, rfl, h⟩ <;>
    simp [on_command, compare_token, handle_nvset, get_next_token, fail_syntax, emit, *]

/-- C2 (witness): the line `nvset kp`, which has no value token. -/
theorem nvset_syntax_error_witness :
    ("nvset" = "nvset" ∨ "nvset" = "eeset") ∧
    (["kp"] = ([] : List String) ∨ (∃ name, ["kp"] = [name]) ∨
      (∃ name value rest, ["kp"] = name :: value :: rest ∧
        name ≠ "kp" ∧ name ≠ "ki" ∧ name ≠ "kd" ∧ name ≠ "is_servocal")) ∧
    (on_command sample_env "nvset" { sample_device with tokens := ["kp"] }).out
      = sample_device.out ++ [Event.fail "syntax error"] ∧
    (on_command sample_env "nvset" { sample_device with tokens := ["kp"] }).EEPROM
      = sample_device.EEPROM :=
  ⟨Or.inl rfl, Or.inr (Or.inl ⟨"kp", rfl⟩),
    nvset_syntax_error sample_env sample_device "nvset" ["kp"] (Or.inl rfl)
      (Or.inr (Or.inl ⟨"kp", rfl⟩))⟩

/-! ## Dispatch -/

/-- C3: a first token that is not exactly one of fwrev, nv, ee, reboot, help, nvset, eeset,
sim, temp makes `on_command` send the syntax failure and nothing else: the resulting device is
the one before with that single fail reply appended, so the store, the sensor object, the
hardware sensor and the cursor are unchanged, and no reboot was requested. -/
theorem unmatched_command (E : Env) (s : Device) (token : String)
    (h : token ∉ command_table) :
    on_command E token s = { s with out := s.out ++ [Event.fail "syntax error"] } := by
  simp only [command_table, List.mem_cons, List.mem_singleton, List.not_mem_nil, or_false,
    not_or] at h
  obtain ⟨h1, h2, h3, h4, h5, h6, h7, h8, h9⟩ := h
  simp [on_command, compare_token, fail_syntax, emit, h1, h2, h3, h4, h5, h6, h7, h8, h9]

/-- C3 (witness): the case variants `NV` and `Help`, the prefix `nvs` of `nvset` and the
extension `temps` of `temp` are all unmatched. -/
theorem unmatched_command_witness :
    ("NV" ∉ command_table ∧ on_command sample_env "NV" sample_device
      = { sample_device with out := sample_device.out ++ [Event.fail "syntax error"] }) ∧
    ("Help" ∉ command_table ∧ on_command sample_env "Help" sample_device
      = { sample_device with out := sample_device.out ++ [Event.fail "syntax error"] }) ∧
    ("nvs" ∉ command_table ∧ on_command sample_env "nvs" sample_device
      = { sample_device with out := sample_device.out ++ [Event.fail "syntax error"] }) ∧
    ("temps" ∉ command_table ∧ on_command sample_env "temps" sample_device
      = { sample_device with out := sample_device.out ++ [Event.fail "syntax error"] }) :=
  ⟨⟨by decide, unmatched_command sample_env sample_device "NV" (by decide)⟩,
    ⟨by decide, unmatched_command sample_env sample_device "Help" (by decide)⟩,
    ⟨by decide, unmatched_command sample_env sample_device "nvs" (by decide)⟩,
    ⟨by decide, unmatched_command sample_env sample_device "temps" (by decide)⟩⟩

/-! ## One terminal reply per command -/

theorem show_nv_out (E : Env) (ee : data_t) (s : Device) :
    ∃ lines, (show_nv E ee s).out = s.out ++ lines ∧ lines.countP Event.isTerminal = 0 := by
  unfold show_nv
  split_ifs <;> simp [replyf, emit, Event.isTerminal]

theorem show_nv_EEPROM (E : Env) (ee : data_t) (s : Device) :
    (show_nv E ee s).EEPROM = s.EEPROM := by
  unfold show_nv
  split_ifs <;> simp [replyf, emit]

theorem handle_help_out (s : Device) :
    (handle_help s).out
      = s.out ++ (help_lines.map (fun line => Event.reply line []) ++ [Event.pass none []]) := by
  simp [handle_help, help_lines, replyf, pass, emit]

theorem handle_nv_reply (E : Env) (s : Device) :
    ∃ sent, (handle_nv E s).out = s.out ++ sent ∧ sent.countP Event.isTerminal = 1 := by
  unfold handle_nv get_next_token
  rcases hs : s.tokens with _ | ⟨t, ts⟩
  · obtain ⟨lines, h1, h2⟩ := show_nv_out E s.EEPROM.clean s
    refine ⟨lines ++ [Event.pass none []], ?_, ?_⟩
    · simp [pass, emit, h1]
    · simp [List.countP_append, h2, Event.isTerminal]
  · simp only
    split_ifs
    · obtain ⟨lines, h1, h2⟩ := show_nv_out E s.EEPROM.data { s with tokens := ts }
      refine ⟨lines ++ [Event.pass none []], ?_, ?_⟩
      · simp [pass, emit, h1]
      · simp [List.countP_append, h2, Event.isTerminal]
    · exact ⟨[Event.eeprom_destroy, Event.pass none []],
        by simp [pass, emit, EEPROM_destroy], by simp [Event.isTerminal]⟩
    · exact ⟨[Event.fail "syntax error"], by simp [ fail_syntax, emit],
        by simp [Event.isTerminal]⟩

theorem handle_nvset_reply (E : Env) (s : Device) :
    ∃ sent, (handle_nvset E s).out = s.out ++ sent ∧ sent.countP Event.isTerminal = 1 := by
  unfold handle_nvset get_next_token
  rcases hs : s.tokens with _ | ⟨name, _ | ⟨value, rest⟩⟩
  · exact ⟨[Event.fail "syntax error"], by simp [ fail_syntax, emit],
      by simp [Event.isTerminal]⟩
  · exact ⟨[Event.fail "syntax error"], by simp [ fail_syntax, emit],
      by simp [Event.isTerminal]⟩
  · simp only
    split_ifs <;>
      simp [pass, emit, fail_syntax, EEPROM_write, PID_set_constants, set_kp, set_ki, set_kd,
        set_is_servo_calibrated, Event.isTerminal]

theorem handle_sim_reply (E : Env) (s : Device) :
    ∃ sent, (handle_sim E s).out = s.out ++ sent ∧ sent.countP Event.isTerminal = 1 := by
  unfold handle_sim get_next_token
  rcases hs : s.tokens with _ | ⟨t, _ | ⟨value, rest⟩⟩
  · exact ⟨[Event.fail "syntax error"], by simp [ fail_syntax, emit],
      by simp [Event.isTerminal]⟩
  · simp only
    split_ifs <;> simp [pass, emit, fail_syntax, Event.isTerminal]
  · simp only
    split_ifs <;> simp [pass, emit, fail_syntax, Event.isTerminal]

/-- C4: for every first token and every sequence of remaining tokens, what one invocation of
`on_command` appends to the trace contains exactly one terminal reply (a pass or a fail). -/
theorem one_terminal_reply (E : Env) (token : String) (s : Device) :
    ∃ sent, (on_command E token s).out = s.out ++ sent ∧
      sent.countP Event.isTerminal = 1 := by
  unfold on_command
  split_ifs
  · exact ⟨[Event.pass (some FW_VERSION) []], rfl, by simp [Event.isTerminal]⟩
  · exact handle_nv_reply E s
  · exact handle_nv_reply E s
  · exact ⟨[Event.pass none [], Event.delay 500, Event.reboot],
      by simp [handle_reboot, pass, emit], by simp [Event.isTerminal]⟩
  · exact ⟨_, handle_help_out s, by simp [help_lines, Event.isTerminal]⟩
  · exact handle_nvset_reply E s
  · exact handle_nvset_reply E s
  · exact handle_sim_reply E s
  · exact ⟨[Event.pass (some "%s %i")
        [Arg.strfloat (CTempHum.read_temp_c s.sht31).1 0 2,
          Arg.int (c_to_f E (CTempHum.read_temp_c s.sht31).1)]],
      by simp [handle_temp, pass, emit], by simp [Event.isTerminal]⟩
  · exact ⟨[Event.fail "syntax error"], by simp [ fail_syntax, emit],
      by simp [Event.isTerminal]⟩

/-! ## Destroying the store -/

/-- C5: for every prior store state, `nv destroy` (or `ee destroy`) calls the store's reset
and then replies pass; afterwards both snapshots and the medium hold the factory-default record
whatever they held before, and a following load yields that same record in both snapshots. -/
theorem nv_destroy_factory (E : Env) (s : Device) (cmd : String) (rest : List String)
    (hcmd : cmd = "nv" ∨ cmd = "ee") :
    (on_command E cmd { s with tokens := "destroy" :: rest }).out
      = s.out ++ [Event.eeprom_destroy, Event.pass none []] ∧
    (on_command E cmd { s with tokens := "destroy" :: rest }).EEPROM
      = { data := E.factory, clean := E.factory, medium := some E.factory } ∧
    ((on_command E cmd { s with tokens := "destroy" :: rest }).EEPROM.load E).data
      = E.factory ∧
    ((on_command E cmd { s with tokens := "destroy" :: rest }).EEPROM.load E).clean
      = E.factory := by
  rcases hcmd with rfl | rfl <;>
    simp [on_command, compare_token, handle_nv, get_next_token, pass, emit, EEPROM_destroy,
      CEEPROM.destroy, CEEPROM.load]

/-- C5 (witness): `nv destroy` on the sample device, whose store holds `sample_record`. -/
theorem nv_destroy_factory_witness :
    ("nv" = "nv" ∨ "nv" = "ee") ∧
    (on_command sample_env "nv" { sample_device with tokens := ["destroy"] }).EEPROM
      = { data := sample_factory, clean := sample_factory, medium := some sample_factory } ∧
    ((on_command sample_env "nv"
        { sample_device with tokens := ["destroy"] }).EEPROM.load sample_env).data
      = sample_factory :=
  ⟨Or.inl rfl,
    (nv_destroy_factory sample_env sample_device "nv" [] (Or.inl rfl)).2.1,
    (nv_destroy_factory sample_env sample_device "nv" [] (Or.inl rfl)).2.2.1⟩

/-! ## Commands that leave the store alone -/

theorem handle_nv_EEPROM (E : Env) (s : Device)
    (h : ∀ rest, s.tokens ≠ "destroy" :: rest) : (handle_nv E s).EEPROM = s.EEPROM := by
  unfold handle_nv get_next_token
  rcases hs : s.tokens with _ | ⟨t, ts⟩
  · simp [pass, emit, show_nv_EEPROM]
  · simp only
    split_ifs with h1 h2
    · simp [pass, emit, show_nv_EEPROM]
    · rw [compare_token_iff] at h2
      exact absurd (h2 ▸ hs) (h ts)
    · rfl

theorem handle_nvset_EEPROM (E : Env) (s : Device)
    (h : ∀ name value rest, s.tokens = name :: value :: rest →
      name ≠ "kp" ∧ name ≠ "ki" ∧ name ≠ "kd" ∧ name ≠ "is_servocal") :
    (handle_nvset E s).EEPROM = s.EEPROM := by
  unfold handle_nvset get_next_token
  rcases hs : s.tokens with _ | ⟨name, _ | ⟨value, rest⟩⟩
  · rfl
  · rfl
  · obtain ⟨h1, h2, h3, h4⟩ := h name value rest hs
    simp [compare_token, fail_syntax, emit, h1, h2, h3, h4]

theorem handle_sim_EEPROM (E : Env) (s : Device) : (handle_sim E s).EEPROM = s.EEPROM := by
  unfold handle_sim get_next_token
  rcases hs : s.tokens with _ | ⟨t, _ | ⟨value, rest⟩⟩
  · rfl
  · simp only
    split_ifs <;> rfl
  · simp only
    split_ifs <;> rfl

theorem handle_help_EEPROM (s : Device) : (handle_help s).EEPROM = s.EEPROM := by
  simp [handle_help, help_lines, replyf, pass, emit]

/-- C6: for every state and every command line that is neither an `nvset`/`eeset` that
commits nor an `nv destroy`/`ee destroy`, the working snapshot, the committed snapshot and the
durable medium after `on_command` are the ones before. -/
theorem store_untouched (E : Env) (token : String) (s : Device)
    (hset : is_field_set token s.tokens = false)
    (hdestroy : is_destroy token s.tokens = false) :
    (on_command E token s).EEPROM = s.EEPROM := by
  unfold on_command
  split_ifs with c1 c2 c3 c4 c5 c6 c7 c8 c9
  · rfl
  · rw [compare_token_iff] at c2
    apply handle_nv_EEPROM
    intro rest hrest
    simp [is_destroy, c2, hrest] at hdestroy
  · rw [compare_token_iff] at c3
    apply handle_nv_EEPROM
    intro rest hrest
    simp [is_destroy, c3, hrest] at hdestroy
  · rfl
  · exact handle_help_EEPROM s
  · rw [compare_token_iff] at c6
    apply handle_nvset_EEPROM
    intro name value rest hrest
    simp [is_field_set, c6, hrest] at hset
    tauto
  · rw [compare_token_iff] at c7
    apply handle_nvset_EEPROM
    intro name value rest hrest
    simp [is_field_set, c7, hrest] at hset
    tauto
  · exact handle_sim_EEPROM E s
  · rfl
  · rfl

/-- C6 (witness): the line `sim temp 72.5` on the sample device. -/
theorem store_untouched_witness :
    is_field_set "sim" ["temp", "72.5"] = false ∧
    is_destroy "sim" ["temp", "72.5"] = false ∧
    (on_command sample_env "sim" { sample_device with tokens := ["temp", "72.5"] }).EEPROM
      = sample_device.EEPROM :=
  ⟨by decide, by decide,
    store_untouched sample_env "sim" { sample_device with tokens := ["temp", "72.5"] }
      (by decide) (by decide)⟩

/-! ## The temperature report and the simulation override -/

theorem handle_temp_out (E : Env) (s : Device) :
    (handle_temp E s).out = s.out ++ [Event.pass (some "%s %i")
      [Arg.strfloat (CTempHum.read_temp_c s.sht31).1 0 2,
        Arg.int (c_to_f E (CTempHum.read_temp_c s.sht31).1)]] := by
  simp [handle_temp, pass, emit]

theorem handle_sim_sht31 (E : Env) (s : Device) : (handle_sim E s).sht31 = s.sht31 := by
  unfold handle_sim get_next_token
  rcases hs : s.tokens with _ | ⟨t, _ | ⟨value, rest⟩⟩
  · rfl
  · simp only
    split_ifs <;> rfl
  · simp only
    split_ifs <;> rfl

/-- The `temp` reply after any `sim` line is computed from the hardware reading alone,
whatever `simulate_temp_c` did to the sensor object. -/
theorem temp_after_sim_reads_hardware (E : Env) (s : Device) (args : List String) :
    (on_line E ["temp"] (on_line E ("sim" :: args) s)).out
      = (on_line E ("sim" :: args) s).out ++ [Event.pass (some "%s %i")
          [Arg.strfloat (CTempHum.read_temp_c s.sht31).1 0 2,
            Arg.int (c_to_f E (CTempHum.read_temp_c s.sht31).1)]] := by
  have h : (on_line E ("sim" :: args) s).sht31 = s.sht31 := by
    simp [on_line, on_command, compare_token, handle_sim_sht31]
  simp [on_line, on_command, compare_token, handle_temp, pass, emit] at h ⊢
  simp [h]

/-- C7 (failing input): on the sample device, whose hardware sensor reads 20 degrees Celsius,
`sim temp 72.5` switches the simulation on and replies pass, and the following `temp` replies
with the hardware reading 20 and its Fahrenheit value 68, although the Fahrenheit value
derived from 72.5 is 162. -/
theorem sim_temp_then_temp_reports_hardware :
    (on_line sample_env ["sim", "temp", "72.5"] sample_device).TempHum.m_is_simulated = true ∧
    (on_line sample_env ["temp"]
        (on_line sample_env ["sim", "temp", "72.5"] sample_device)).out
      = [Event.pass none [],
          Event.pass (some "%s %i") [Arg.strfloat (FloatVal.val 20) 0 2, Arg.int 68]] ∧
    c_to_f sample_env (sample_env.atof "72.5") = 162 := by
  refine ⟨?_, ?_, ?_⟩
  · simp [on_line, on_command, compare_token, handle_sim, get_next_token, pass, emit,
      sample_env, sample_atof, sample_device, CTempHum.simulate_temp_c, FloatVal.gt,
      FloatVal.lt, FloatVal.ofInt]
    norm_num
  · simp [on_line, on_command, compare_token, handle_sim, get_next_token, pass, emit,
      handle_temp, sample_device, sample_sht31, CTempHum.read_temp_c,
      Adafruit_SHT31.begin, Adafruit_SHT31.readTemperature, FloatVal.isnan, c_to_f,
      float_to_int, FloatVal.add, FloatVal.mul, sample_env, trunc]
    norm_num
  · simp [c_to_f, float_to_int, FloatVal.add, FloatVal.mul, sample_env, sample_atof, trunc]
    norm_num

/-! ## The sensor object -/

/-- C8: after `simulate_temp_f(t)` the object is simulating exactly when t is a finite value
strictly between -99 and 99.  Inside the band a read through `read_temp_f` returns t itself
and leaves the hardware sensor as it was (no reading taken, no `begin`), for every state of
the hardware, hence at every later read.  Outside the band, which includes exactly 99 and
exactly -99, simulation is off and `read_temp_f` takes its result from `read_temp_c`, which
reads the hardware. -/
theorem simulate_temp_f_band (E : Env) (t : FloatVal) (c : CTempHum) :
    ((CTempHum.simulate_temp_f t c).m_is_simulated = true
      ↔ ∃ q, t = FloatVal.val q ∧ -99 < q ∧ q < 99) ∧
    (∀ q, t = FloatVal.val q → -99 < q → q < 99 → ∀ h : Adafruit_SHT31,
      (CTempHum.read_temp_f E (CTempHum.simulate_temp_f t c) h).1 = t ∧
      (CTempHum.read_temp_f E (CTempHum.simulate_temp_f t c) h).2.taken = h.taken ∧
      (CTempHum.read_temp_f E (CTempHum.simulate_temp_f t c) h).2.begins = h.begins ∧
      (CTempHum.read_temp_f E (CTempHum.simulate_temp_f t c) h).2.readings = h.readings) ∧
    (∀ q, t = FloatVal.val q → (q ≤ -99 ∨ 99 ≤ q) →
      (CTempHum.simulate_temp_f t c).m_is_simulated = false) ∧
    ((CTempHum.simulate_temp_f t c).m_is_simulated = false → ∀ h : Adafruit_SHT31,
      CTempHum.read_temp_f E (CTempHum.simulate_temp_f t c) h
        = (if (CTempHum.read_temp_c h).1.isnan then CTempHum.read_temp_c h
           else (FloatVal.ofInt (c_to_f E (CTempHum.read_temp_c h).1),
             (CTempHum.read_temp_c h).2)) ∧
      h.taken < (CTempHum.read_temp_f E (CTempHum.simulate_temp_f t c) h).2.taken) := by
  have hband : (CTempHum.simulate_temp_f t c).m_is_simulated = true
      ↔ ∃ q, t = FloatVal.val q ∧ -99 < q ∧ q < 99 := by
    cases t with
    | nan => simp [CTempHum.simulate_temp_f, FloatVal.gt, FloatVal.lt, FloatVal.ofInt]
    | inf n => cases n <;> simp [CTempHum.simulate_temp_f, FloatVal.gt, FloatVal.lt, FloatVal.ofInt]
    | val q => simp [CTempHum.simulate_temp_f, FloatVal.gt, FloatVal.lt, FloatVal.ofInt]
  refine ⟨hband, ?_, ?_, ?_⟩
  · intro q hq h1 h2 h
    have hsim : (CTempHum.simulate_temp_f t c).m_is_simulated = true :=
      hband.mpr ⟨q, hq, h1, h2⟩
    have hread : CTempHum.read_temp_f E (CTempHum.simulate_temp_f t c) h = (t, h) := by
      unfold CTempHum.read_temp_f
      rw [if_pos hsim]
      rfl
    rw [hread]
    exact ⟨rfl, rfl, rfl, rfl⟩
  · intro q hq hout
    cases hb : (CTempHum.simulate_temp_f t c).m_is_simulated with
    | false => rfl
    | true =>
      obtain ⟨q', hq', h1, h2⟩ := hband.mp hb
      rw [hq] at hq'
      cases hq'
      rcases hout with hout | hout <;> linarith
  · intro hoff h
    have hread : CTempHum.read_temp_f E (CTempHum.simulate_temp_f t c) h
        = (if (CTempHum.read_temp_c h).1.isnan then CTempHum.read_temp_c h
           else (FloatVal.ofInt (c_to_f E (CTempHum.read_temp_c h).1),
             (CTempHum.read_temp_c h).2)) := by
      simp [CTempHum.read_temp_f, hoff]
    refine ⟨hread, ?_⟩
    rw [hread]
    have htaken : h.taken < (CTempHum.read_temp_c h).2.taken := by
      unfold CTempHum.read_temp_c
      simp only [Adafruit_SHT31.begin, Adafruit_SHT31.readTemperature]
      split_ifs <;> simp only [] <;> omega
    split_ifs <;> exact htaken

/-- C8 (witness): 72.5 lies in the band and is returned as read; 99 does not. -/
theorem simulate_temp_f_band_witness :
    (CTempHum.read_temp_f sample_env
      (CTempHum.simulate_temp_f (FloatVal.val (145 / 2)) sample_device.TempHum)
      sample_sht31).1 = FloatVal.val (145 / 2) ∧
    (CTempHum.simulate_temp_f (FloatVal.val 99) sample_device.TempHum).m_is_simulated
      = false :=
  ⟨((simulate_temp_f_band sample_env (FloatVal.val (145 / 2)) sample_device.TempHum).2.1
      (145 / 2) rfl (by norm_num) (by norm_num) sample_sht31).1,
    (simulate_temp_f_band sample_env (FloatVal.val 99) sample_device.TempHum).2.2.1
      99 rfl (Or.inr (le_refl 99))⟩

/-- C9: `read_temp_c` returns the first raw reading when that is a number and otherwise the
second raw reading, whatever it is; it takes one reading in the first case and two in the
second, so never more than two. -/
theorem read_temp_c_one_retry (h : Adafruit_SHT31) :
    (CTempHum.read_temp_c h).1
      = (if (h.readings h.taken).isnan then h.readings (h.taken + 1)
         else h.readings h.taken) ∧
    (CTempHum.read_temp_c h).2.taken
      = (if (h.readings h.taken).isnan then h.taken + 2 else h.taken + 1) ∧
    (CTempHum.read_temp_c h).2.taken ≤ h.taken + 2 ∧
    (CTempHum.read_temp_c h).2.readings = h.readings := by
  unfold CTempHum.read_temp_c
  simp only [Adafruit_SHT31.begin, Adafruit_SHT31.readTemperature]
  split_ifs <;> simp

/-! ## Reboot -/

/-- C10: for `reboot`, whatever tokens follow, `on_command` appends to the trace exactly the
pass reply, then `delay(500)`, then the device reset, in this order, and the store is
unchanged. -/
theorem reboot_trace (E : Env) (s : Device) :
    (on_command E "reboot" s).out
      = s.out ++ [Event.pass none [], Event.delay 500, Event.reboot] ∧
    (on_command E "reboot" s).EEPROM = s.EEPROM := by
  simp [on_command, compare_token, handle_reboot, pass, emit]

/-! ## Help and the aliases -/

/-- C12: for every state and every sequence of remaining tokens, `on_command` with first token
`ee` yields the same device, trace included, as with `nv`, and `eeset` the same as `nvset`. -/
theorem alias_equivalence (E : Env) (s : Device) :
    on_command E "ee" s = on_command E "nv" s ∧
    on_command E "eeset" s = on_command E "nvset" s := by
  simp [on_command, compare_token]

/-! ## Notifying the control loop -/

/-- C13: after `nvset`/`eeset` of kp, ki or kd the trace gets the commit, then exactly one
`PID.set_constants` whose triple is the committed snapshot's three constants, namely the parsed
value for the named constant and the prior working values for the other two, then the pass;
`nvset is_servocal` gets the commit and the pass only. -/
theorem nvset_notifies_pid (E : Env) (s : Device) (cmd name value : String)
    (rest : List String) (hcmd : cmd = "nvset" ∨ cmd = "eeset") :
    let s' := on_command E cmd { s with tokens := name :: value :: rest }
    (name = "kp" ∨ name = "ki" ∨ name = "kd" →
      s'.out = s.out ++ [Event.eeprom_write,
        Event.pid_set_constants s'.EEPROM.clean.kp s'.EEPROM.clean.ki s'.EEPROM.clean.kd,
        Event.pass none []]) ∧
    (name = "kp" → s'.EEPROM.clean.kp = E.atof value ∧
      s'.EEPROM.clean.ki = s.EEPROM.data.ki ∧ s'.EEPROM.clean.kd = s.EEPROM.data.kd) ∧
    (name = "ki" → s'.EEPROM.clean.kp = s.EEPROM.data.kp ∧
      s'.EEPROM.clean.ki = E.atof value ∧ s'.EEPROM.clean.kd = s.EEPROM.data.kd) ∧
    (name = "kd" → s'.EEPROM.clean.kp = s.EEPROM.data.kp ∧
      s'.EEPROM.clean.ki = s.EEPROM.data.ki ∧ s'.EEPROM.clean.kd = E.atof value) ∧
    (name = "is_servocal" → s'.out = s.out ++ [Event.eeprom_write, Event.pass none []]) := by
  intro s'
  refine ⟨?_, ?_, ?_, ?_, ?_⟩
  · rintro (rfl | rfl | rfl) <;> rcases hcmd with rfl | rfl <;>
      simp [s', on_command, compare_token, handle_nvset, get_next_token, pass, emit,
        EEPROM_write, PID_set_constants, set_kp, set_ki, set_kd, CEEPROM.write]
  all_goals
    rintro rfl
    rcases hcmd with rfl | rfl <;>
      simp [s', on_command, compare_token, handle_nvset, get_next_token, pass, emit,
        EEPROM_write, PID_set_constants, set_kp, set_ki, set_kd, set_is_servo_calibrated,
        CEEPROM.write]

/-- C13 (witness): `nvset ki 0.9` on the sample device, whose working kp is 10 and kd is 0. -/
theorem nvset_notifies_pid_witness :
    ("nvset" = "nvset" ∨ "nvset" = "eeset") ∧
    (on_command sample_env "nvset" { sample_device with tokens := ["ki", "0.9"] }).EEPROM.clean.kp
        = sample_device.EEPROM.data.kp ∧
    (on_command sample_env "nvset" { sample_device with tokens := ["ki", "0.9"] }).EEPROM.clean.ki
        = sample_env.atof "0.9" ∧
    (on_command sample_env "nvset" { sample_device with tokens := ["ki", "0.9"] }).EEPROM.clean.kd
        = sample_device.EEPROM.data.kd :=
  ⟨Or.inl rfl,
    (nvset_notifies_pid sample_env sample_device "nvset" "ki" "0.9" [] (Or.inl rfl)).2.2.1 rfl⟩

/-! ## The dump -/

theorem show_nv_eq_dump_spec (E : Env) (ee : data_t) (s : Device) :
    show_nv E ee s = { s with out := s.out ++ dump_spec E ee } := by
  unfold show_nv dump_spec decode_run_mode
  split_ifs <;> simp [replyf, emit, run_mode_line]

/-- C14: `nv` (or `ee`) appends the dump of the committed snapshot and `nv dirty` the dump of
the working snapshot, each followed by the pass reply; the dump is the spec's function of the
snapshot alone, has exactly ten lines in the order run_mode, manual_index, setpoint,
orientation, is_servo_cal, servo_min, servo_max, kp, ki, kd, asks `strfloat` for 3 decimal
digits for kp, ki and kd, and its first line carries the label MANUAL for the Manual mode
value, SETPOINT for the Setpoint mode value and the raw integer for every other value. -/
theorem dump_renders_snapshot (E : Env) (s : Device) (cmd : String) (rest : List String)
    (hcmd : cmd = "nv" ∨ cmd = "ee") (hconst : E.MANUAL_MODE ≠ E.SETPOINT_MODE) :
    (on_command E cmd { s with tokens := [] }).out
      = s.out ++ (dump_spec E s.EEPROM.clean ++ [Event.pass none []]) ∧
    (on_command E cmd { s with tokens := "dirty" :: rest }).out
      = s.out ++ (dump_spec E s.EEPROM.data ++ [Event.pass none []]) ∧
    (∀ ee : data_t, (dump_spec E ee).length = 10) ∧
    (∀ ee : data_t, ee.run_mode = E.MANUAL_MODE →
      (dump_spec E ee).head? = some (Event.reply "run_mode           : 0 - MANUAL" [])) ∧
    (∀ ee : data_t, ee.run_mode = E.SETPOINT_MODE →
      (dump_spec E ee).head? = some (Event.reply "run_mode           : 2 - SETPOINT" [])) ∧
    (∀ ee : data_t, ee.run_mode ≠ E.MANUAL_MODE → ee.run_mode ≠ E.SETPOINT_MODE →
      (dump_spec E ee).head?
        = some (Event.reply "run_mode           : %i" [Arg.int ee.run_mode])) ∧
    (∀ ee : data_t, (dump_spec E ee).drop 7
      = [Event.reply "kp                 : %s" [Arg.strfloat ee.kp 0 3],
         Event.reply "ki                 : %s" [Arg.strfloat ee.ki 0 3],
         Event.reply "kd                 : %s" [Arg.strfloat ee.kd 0 3]]) := by
  refine ⟨?_, ?_, ?_, ?_, ?_, ?_, ?_⟩
  · rcases hcmd with rfl | rfl <;>
      simp [on_command, compare_token, handle_nv, get_next_token, pass, emit,
        show_nv_eq_dump_spec]
  · rcases hcmd with rfl | rfl <;>
      simp [on_command, compare_token, handle_nv, get_next_token, pass, emit,
        show_nv_eq_dump_spec]
  · intro ee
    simp [dump_spec]
  · intro ee h
    simp [dump_spec, decode_run_mode, run_mode_line, h]
  · intro ee h
    have h2 : ¬ E.SETPOINT_MODE = E.MANUAL_MODE := fun e => hconst e.symm
    simp [dump_spec, decode_run_mode, run_mode_line, h, h2]
  · intro ee h1 h2
    simp [dump_spec, decode_run_mode, run_mode_line, h1, h2]
  · intro ee
    simp [dump_spec]

/-- C14 (witness): `nv` on the sample device, whose committed run mode is the Manual value. -/
theorem dump_renders_snapshot_witness :
    ("nv" = "nv" ∨ "nv" = "ee") ∧ sample_env.MANUAL_MODE ≠ sample_env.SETPOINT_MODE ∧
    (on_command sample_env "nv" { sample_device with tokens := [] }).out
      = sample_device.out ++ (dump_spec sample_env sample_device.EEPROM.clean
          ++ [Event.pass none []]) ∧
    (dump_spec sample_env sample_record).head?
      = some (Event.reply "run_mode           : 0 - MANUAL" []) :=
  ⟨Or.inl rfl, by decide,
    (dump_renders_snapshot sample_env sample_device "nv" [] (Or.inl rfl) (by decide)).1,
    (dump_renders_snapshot sample_env sample_device "nv" [] (Or.inl rfl) (by decide)).2.2.2.1
      sample_record rfl⟩

/-! ## Committed and working snapshots stay equal -/

theorem handle_nv_sync (E : Env) (s : Device) (h : s.EEPROM.clean = s.EEPROM.data) :
    (handle_nv E s).EEPROM.clean = (handle_nv E s).EEPROM.data := by
  unfold handle_nv get_next_token
  rcases hs : s.tokens with _ | ⟨t, ts⟩
  · simp [pass, emit, show_nv_EEPROM, h]
  · simp only
    split_ifs
    · simp [pass, emit, show_nv_EEPROM, h]
    · simp [pass, emit, EEPROM_destroy, CEEPROM.destroy]
    · simp [ fail_syntax, emit, h]

theorem handle_nvset_sync (E : Env) (s : Device) (h : s.EEPROM.clean = s.EEPROM.data) :
    (handle_nvset E s).EEPROM.clean = (handle_nvset E s).EEPROM.data := by
  unfold handle_nvset get_next_token
  rcases hs : s.tokens with _ | ⟨name, _ | ⟨value, rest⟩⟩
  · simp [ fail_syntax, emit, h]
  · simp [ fail_syntax, emit, h]
  · simp only
    split_ifs <;>
      simp [pass, emit, fail_syntax, EEPROM_write, PID_set_constants, set_kp, set_ki, set_kd,
        set_is_servo_calibrated, CEEPROM.write, h]

theorem on_command_sync (E : Env) (token : String) (s : Device)
    (h : s.EEPROM.clean = s.EEPROM.data) :
    (on_command E token s).EEPROM.clean = (on_command E token s).EEPROM.data := by
  unfold on_command
  split_ifs
  · exact h
  · exact handle_nv_sync E s h
  · exact handle_nv_sync E s h
  · exact h
  · rw [handle_help_EEPROM]; exact h
  · exact handle_nvset_sync E s h
  · exact handle_nvset_sync E s h
  · rw [handle_sim_EEPROM]; exact h
  · exact h
  · exact h

theorem run_lines_sync (E : Env) (lines : List (List String)) :
    ∀ s : Device, s.EEPROM.clean = s.EEPROM.data →
      (run_lines E lines s).EEPROM.clean = (run_lines E lines s).EEPROM.data := by
  induction lines with
  | nil => intro s h; exact h
  | cons line more ih =>
    intro s h
    have hstep : (on_line E line s).EEPROM.clean = (on_line E line s).EEPROM.data := by
      cases line with
      | nil => exact h
      | cons token args => exact on_command_sync E token { s with tokens := args } h
    exact ih (on_line E line s) hstep

/-- C15: starting from any state whose committed and working snapshots are equal, after one
command handled by `on_command`, successful or failing, they are equal again; hence they are
equal after every sequence of command lines, and then `nv` and `nv dirty` append the same
dump and reply. -/
theorem snapshots_stay_equal (E : Env) (s : Device) (h : s.EEPROM.clean = s.EEPROM.data) :
    (∀ token : String,
      (on_command E token s).EEPROM.clean = (on_command E token s).EEPROM.data) ∧
    (∀ lines : List (List String),
      (run_lines E lines s).EEPROM.clean = (run_lines E lines s).EEPROM.data ∧
      (on_line E ["nv"] (run_lines E lines s)).out
        = (on_line E ["nv", "dirty"] (run_lines E lines s)).out) := by
  refine ⟨fun token => on_command_sync E token s h, fun lines => ?_⟩
  have hs := run_lines_sync E lines s h
  refine ⟨hs, ?_⟩
  simp [on_line, on_command, compare_token, handle_nv, get_next_token, pass, emit,
    show_nv_eq_dump_spec, hs]

/-- C15 (witness): the sample device after `nvset kp 1.250`, `nv destroy` and a failing line. -/
theorem snapshots_stay_equal_witness :
    sample_device.EEPROM.clean = sample_device.EEPROM.data ∧
    (run_lines sample_env [["nvset", "kp", "1.250"], ["nv", "destroy"], ["nvset", "kp"]]
        sample_device).EEPROM.clean
      = (run_lines sample_env [["nvset", "kp", "1.250"], ["nv", "destroy"], ["nvset", "kp"]]
        sample_device).EEPROM.data :=
  ⟨rfl, ((snapshots_stay_equal sample_env sample_device rfl).2
    [["nvset", "kp", "1.250"], ["nv", "destroy"], ["nvset", "kp"]]).1⟩

/-! ## What a field set changes, and when it passes -/

/-- C16: a successful `nvset <field> <value>` (or `eeset`) leaves the working snapshot as it
was except for the named field: the snapshot afterwards is the one before with that one field
replaced, so run_mode, manual_index, setpoint_f, orientation, servo_min, servo_max and the
other three settable fields keep their values. -/
theorem nvset_changes_one_field (E : Env) (s : Device) (cmd name value : String)
    (rest : List String) (hcmd : cmd = "nvset" ∨ cmd = "eeset") :
    let s' := on_command E cmd { s with tokens := name :: value :: rest }
    (name = "kp" → s'.EEPROM.data = { s.EEPROM.data with kp := E.atof value }) ∧
    (name = "ki" → s'.EEPROM.data = { s.EEPROM.data with ki := E.atof value }) ∧
    (name = "kd" → s'.EEPROM.data = { s.EEPROM.data with kd := E.atof value }) ∧
    (name = "is_servocal" → s'.EEPROM.data
      = { s.EEPROM.data with is_servo_calibrated := float_to_int E (E.atof value) }) ∧
    (name = "kp" ∨ name = "ki" ∨ name = "kd" ∨ name = "is_servocal" →
      s'.EEPROM.data.run_mode = s.EEPROM.data.run_mode ∧
      s'.EEPROM.data.manual_index = s.EEPROM.data.manual_index ∧
      s'.EEPROM.data.setpoint_f = s.EEPROM.data.setpoint_f ∧
      s'.EEPROM.data.orientation = s.EEPROM.data.orientation ∧
      s'.EEPROM.data.servo_min = s.EEPROM.data.servo_min ∧
      s'.EEPROM.data.servo_max = s.EEPROM.data.servo_max) := by
  intro s'
  refine ⟨?_, ?_, ?_, ?_, ?_⟩
  · rintro rfl
    rcases hcmd with rfl | rfl <;>
      simp [s', on_command, compare_token, handle_nvset, get_next_token, pass, emit,
        EEPROM_write, PID_set_constants, set_kp, CEEPROM.write]
  · rintro rfl
    rcases hcmd with rfl | rfl <;>
      simp [s', on_command, compare_token, handle_nvset, get_next_token, pass, emit,
        EEPROM_write, PID_set_constants, set_ki, CEEPROM.write]
  · rintro rfl
    rcases hcmd with rfl | rfl <;>
      simp [s', on_command, compare_token, handle_nvset, get_next_token, pass, emit,
        EEPROM_write, PID_set_constants, set_kd, CEEPROM.write]
  · rintro rfl
    rcases hcmd with rfl | rfl <;>
      simp [s', on_command, compare_token, handle_nvset, get_next_token, pass, emit,
        EEPROM_write, set_is_servo_calibrated, CEEPROM.write]
  · rintro (rfl | rfl | rfl | rfl) <;> rcases hcmd with rfl | rfl <;>
      simp [s', on_command, compare_token, handle_nvset, get_next_token, pass, emit,
        EEPROM_write, PID_set_constants, set_kp, set_ki, set_kd, set_is_servo_calibrated,
        CEEPROM.write]

/-- C16 (witness): `nvset kd 1.250` on the sample device. -/
theorem nvset_changes_one_field_witness :
    ("nvset" = "nvset" ∨ "nvset" = "eeset") ∧
    (on_command sample_env "nvset" { sample_device with tokens := ["kd", "1.250"] }).EEPROM.data
      = { sample_device.EEPROM.data with kd := sample_env.atof "1.250" } :=
  ⟨Or.inl rfl,
    (nvset_changes_one_field sample_env sample_device "nvset" "kd" "1.250" []
      (Or.inl rfl)).2.2.1 rfl⟩

theorem handle_nvset_out (E : Env) (s : Device) :
    (handle_nvset E s).out = s.out ++ nvset_sent E s := by
  obtain ⟨sent, h1, _⟩ := handle_nvset_reply E s
  simp [nvset_sent, h1]

/-- C19: what `handle_nvset` appends to the trace has the pass as its terminal reply exactly
when the line has a field-name token and a value token and the name is one of kp, ki, kd,
is_servocal, whatever the text of the value token and whatever `atof` makes of it; in every
other case it appends the syntax failure alone.  Tokens after the value have no influence on
the store or on the trace.  On a passing line the value token is converted and stored: the
working snapshot, the committed snapshot and the medium all become the prior working snapshot
with the named field set to `atof` of the value token (converted to `int` for is_servocal);
on every other line the store is left as it was. -/
theorem handle_nvset_pass_iff (E : Env) (s : Device) :
    ((nvset_sent E s).filter Event.isTerminal = [Event.pass none []]
      ↔ ∃ name value rest, s.tokens = name :: value :: rest ∧
          (name = "kp" ∨ name = "ki" ∨ name = "kd" ∨ name = "is_servocal")) ∧
    ((¬ ∃ name value rest, s.tokens = name :: value :: rest ∧
          (name = "kp" ∨ name = "ki" ∨ name = "kd" ∨ name = "is_servocal")) →
      nvset_sent E s = [Event.fail "syntax error"]) ∧
    (∀ (name value : String) (rest rest' : List String),
      (handle_nvset E { s with tokens := name :: value :: rest }).EEPROM
        = (handle_nvset E { s with tokens := name :: value :: rest' }).EEPROM ∧
      (handle_nvset E { s with tokens := name :: value :: rest }).out
        = (handle_nvset E { s with tokens := name :: value :: rest' }).out) ∧
    (∀ (name value : String) (rest : List String), s.tokens = name :: value :: rest →
      (name = "kp" → (handle_nvset E s).EEPROM
        = { data := { s.EEPROM.data with kp := E.atof value },
            clean := { s.EEPROM.data with kp := E.atof value },
            medium := some { s.EEPROM.data with kp := E.atof value } }) ∧
      (name = "ki" → (handle_nvset E s).EEPROM
        = { data := { s.EEPROM.data with ki := E.atof value },
            clean := { s.EEPROM.data with ki := E.atof value },
            medium := some { s.EEPROM.data with ki := E.atof value } }) ∧
      (name = "kd" → (handle_nvset E s).EEPROM
        = { data := { s.EEPROM.data with kd := E.atof value },
            clean := { s.EEPROM.data with kd := E.atof value },
            medium := some { s.EEPROM.data with kd := E.atof value } }) ∧
      (name = "is_servocal" → (handle_nvset E s).EEPROM
        = { data := { s.EEPROM.data with
              is_servo_calibrated := float_to_int E (E.atof value) },
            clean := { s.EEPROM.data with
              is_servo_calibrated := float_to_int E (E.atof value) },
            medium := some { s.EEPROM.data with
              is_servo_calibrated := float_to_int E (E.atof value) } })) ∧
    ((¬ ∃ name value rest, s.tokens = name :: value :: rest ∧
          (name = "kp" ∨ name = "ki" ∨ name = "kd" ∨ name = "is_servocal")) →
      (handle_nvset E s).EEPROM = s.EEPROM) := by
  have hfail : (¬ ∃ name value rest, s.tokens = name :: value :: rest ∧
        (name = "kp" ∨ name = "ki" ∨ name = "kd" ∨ name = "is_servocal")) →
      nvset_sent E s = [Event.fail "syntax error"] := by
    intro hno
    unfold nvset_sent handle_nvset get_next_token
    rcases hs : s.tokens with _ | ⟨name, _ | ⟨value, rest⟩⟩
    · simp [ fail_syntax, emit]
    · simp [ fail_syntax, emit]
    · have hname : ¬ (name = "kp" ∨ name = "ki" ∨ name = "kd" ∨ name = "is_servocal") :=
        fun hn => hno ⟨name, value, rest, hs, hn⟩
      simp only [not_or] at hname
      obtain ⟨h1, h2, h3, h4⟩ := hname
      simp [compare_token, fail_syntax, emit, h1, h2, h3, h4]
  refine ⟨⟨?_, ?_⟩, hfail, ?_, ?_, ?_⟩
  · intro hpass
    by_contra hno
    rw [hfail hno] at hpass
    simp [Event.isTerminal] at hpass
  · rintro ⟨name, value, rest, hs, hname⟩
    unfold nvset_sent handle_nvset get_next_token
    rw [hs]
    rcases hname with rfl | rfl | rfl | rfl <;>
      simp [compare_token, pass, emit, EEPROM_write, PID_set_constants, set_kp, set_ki, set_kd,
        set_is_servo_calibrated, Event.isTerminal]
  · intro name value rest rest'
    unfold handle_nvset get_next_token
    simp only
    split_ifs <;>
      simp [pass, emit, fail_syntax, EEPROM_write, PID_set_constants, set_kp, set_ki, set_kd,
        set_is_servo_calibrated]
  · intro name value rest hs
    unfold handle_nvset get_next_token
    rw [hs]
    refine ⟨?_, ?_, ?_, ?_⟩ <;> rintro rfl <;>
      simp [compare_token, pass, emit, EEPROM_write, PID_set_constants, set_kp, set_ki, set_kd,
        set_is_servo_calibrated, CEEPROM.write]
  · intro hno
    apply handle_nvset_EEPROM
    intro name value rest hs
    have hname : ¬ (name = "kp" ∨ name = "ki" ∨ name = "kd" ∨ name = "is_servocal") :=
      fun hn => hno ⟨name, value, rest, hs, hn⟩
    simp only [not_or] at hname
    exact hname

/-- C19 (witness): the value token `abc` is not a number; `nvset kp abc` still passes, and
what `atof` makes of `abc` is stored as kp in both snapshots and on the medium. -/
theorem handle_nvset_pass_iff_witness :
    (∃ name value rest, ({ sample_device with tokens := ["kp", "abc"] } : Device).tokens
        = name :: value :: rest ∧
      (name = "kp" ∨ name = "ki" ∨ name = "kd" ∨ name = "is_servocal")) ∧
    (nvset_sent sample_env { sample_device with tokens := ["kp", "abc"] }).filter
        Event.isTerminal = [Event.pass none []] ∧
    (handle_nvset sample_env { sample_device with tokens := ["kp", "abc"] }).EEPROM
      = { data := { sample_record with kp := sample_env.atof "abc" },
          clean := { sample_record with kp := sample_env.atof "abc" },
          medium := some { sample_record with kp := sample_env.atof "abc" } } :=
  ⟨⟨"kp", "abc", [], rfl, Or.inl rfl⟩,
    (handle_nvset_pass_iff sample_env { sample_device with tokens := ["kp", "abc"] }).1.mpr
      ⟨"kp", "abc", [], rfl, Or.inl rfl⟩,
    ((handle_nvset_pass_iff sample_env
      { sample_device with tokens := ["kp", "abc"] }).2.2.2.1 "kp" "abc" [] rfl).1 rfl⟩

/-! ## Conversions -/

theorem trunc_small (q : ℚ) (h1 : -1 < q) (h2 : q < 1) : trunc q = 0 := by
  unfold trunc
  split_ifs with h
  · rw [Int.floor_eq_iff]
    constructor
    · simpa using h
    · simpa using h2
  · rw [Int.ceil_eq_iff]
    push_neg at h
    constructor
    · simpa using h1
    · simpa using h.le

theorem trunc_large (q : ℚ) (h : q ≤ -1 ∨ 1 ≤ q) : trunc q ≠ 0 := by
  unfold trunc
  rcases h with h | h
  · have hneg : ¬ (0 : ℚ) ≤ q := by linarith
    rw [if_neg hneg]
    have hc : ⌈q⌉ ≤ -1 := by
      rw [Int.ceil_le]
      simpa using h
    omega
  · have hpos : (0 : ℚ) ≤ q := by linarith
    rw [if_pos hpos]
    have hf : 1 ≤ ⌊q⌋ := by
      rw [Int.le_floor]
      simpa using h
    omega

theorem float_to_int_of_fits (E : Env) (q : ℚ)
    (h : -((2 : Int) ^ (E.int_bits - 1)) ≤ trunc q ∧ trunc q < (2 : Int) ^ (E.int_bits - 1)) :
    float_to_int E (FloatVal.val q) = trunc q := by
  simp only [float_to_int]
  rw [if_pos h]

theorem zero_fits (E : Env) :
    -((2 : Int) ^ (E.int_bits - 1)) ≤ 0 ∧ (0 : Int) < (2 : Int) ^ (E.int_bits - 1) := by
  have h : (0 : Int) < (2 : Int) ^ (E.int_bits - 1) := by positivity
  constructor
  · linarith
  · exact h

/-- C17 (counterexample): with a 16-bit `int`, `nvset is_servocal 65536` has a parsed value of
magnitude at least 1 whose truncation does not fit, and on a platform where the undefined
conversion yields 0 the stored flag is 0. -/
theorem nvset_is_servocal_large_value_stores_zero :
    sample_env_large.atof "65536" = FloatVal.val 65536 ∧
    (on_command sample_env_large "nvset"
      { sample_device with tokens := ["is_servocal", "65536"] }).EEPROM.data.is_servo_calibrated
      = 0 := by
  refine ⟨by simp [sample_env_large], ?_⟩
  simp [on_command, compare_token, handle_nvset, get_next_token, pass, emit, EEPROM_write,
    set_is_servo_calibrated, CEEPROM.write, float_to_int, sample_env_large, sample_env, trunc]

/-- C17 (amended): `nvset is_servocal <v>` (or `eeset`) stores the float-to-int conversion of
the parsed value: every finite v with -1 < v < 1 stores 0, and every finite v with v <= -1 or
v >= 1 whose truncation toward zero fits in `int` stores that truncation, which is not 0. -/
theorem nvset_is_servocal_truncates (E : Env) (s : Device) (cmd value : String)
    (rest : List String) (hcmd : cmd = "nvset" ∨ cmd = "eeset") :
    let s' := on_command E cmd { s with tokens := "is_servocal" :: value :: rest }
    s'.EEPROM.data.is_servo_calibrated = float_to_int E (E.atof value) ∧
    (∀ q, E.atof value = FloatVal.val q → -1 < q → q < 1 →
      s'.EEPROM.data.is_servo_calibrated = 0) ∧
    (∀ q, E.atof value = FloatVal.val q → (q ≤ -1 ∨ 1 ≤ q) →
      -((2 : Int) ^ (E.int_bits - 1)) ≤ trunc q → trunc q < (2 : Int) ^ (E.int_bits - 1) →
      s'.EEPROM.data.is_servo_calibrated = trunc q ∧
      s'.EEPROM.data.is_servo_calibrated ≠ 0) := by
  intro s'
  have hstored : s'.EEPROM.data.is_servo_calibrated = float_to_int E (E.atof value) := by
    rcases hcmd with rfl | rfl <;>
      simp [s', on_command, compare_token, handle_nvset, get_next_token, pass, emit,
        EEPROM_write, set_is_servo_calibrated, CEEPROM.write]
  refine ⟨hstored, ?_, ?_⟩
  · intro q hq h1 h2
    rw [hstored, hq, float_to_int_of_fits E q (by rw [trunc_small q h1 h2]; exact zero_fits E)]
    exact trunc_small q h1 h2
  · intro q hq hbig hlo hhi
    rw [hstored, hq, float_to_int_of_fits E q ⟨hlo, hhi⟩]
    exact ⟨rfl, trunc_large q hbig⟩

/-- C17 (witness): `nvset is_servocal 0.9` stores 0. -/
theorem nvset_is_servocal_truncates_witness :
    ("nvset" = "nvset" ∨ "nvset" = "eeset") ∧
    sample_env.atof "0.9" = FloatVal.val (9 / 10) ∧
    (on_command sample_env "nvset"
      { sample_device with tokens := ["is_servocal", "0.9"] }).EEPROM.data.is_servo_calibrated
      = 0 :=
  ⟨Or.inl rfl, by simp [sample_env, sample_atof],
    (nvset_is_servocal_truncates sample_env sample_device "nvset" "0.9" [] (Or.inl rfl)).2.1
      (9 / 10) (by simp [sample_env, sample_atof]) (by norm_num) (by norm_num)⟩

theorem c_to_f_f_to_c (E : Env) (f : Int) :
    c_to_f E (f_to_c f)
      = float_to_int E (FloatVal.val ((f : ℚ) + ((f : ℚ) - 32) / 125000)) := by
  simp only [c_to_f, f_to_c, FloatVal.ofInt, FloatVal.mul, FloatVal.add]
  congr 2
  push_cast
  ring

/-- C18 (counterexample): in exact arithmetic the stored value 31 comes back as 30, because
(31 - 32) * 0.55556 * 1.8 + 32 = 30.999992 is truncated. -/
theorem f_to_c_round_trip_fails_at_31 :
    c_to_f sample_env (f_to_c 31) = 30 ∧ c_to_f sample_env (f_to_c 31) ≠ 31 := by
  have h : c_to_f sample_env (f_to_c 31) = 30 := by
    simp [c_to_f, f_to_c, float_to_int, FloatVal.ofInt, FloatVal.mul, FloatVal.add, sample_env,
      trunc]
    norm_num
  rw [h]
  exact ⟨rfl, by decide⟩

/-- C18 (amended): in exact arithmetic with the constants 1.8 and 0.55556 and truncation
toward zero, for every `int` f for which f - 32 is an `int` as well, c_to_f(f_to_c(f)) = f
when 32 <= f < 125032 or -124968 < f <= 0, and c_to_f(f_to_c(f)) = f - 1 when 1 <= f <= 31. -/
theorem f_to_c_round_trip (E : Env) (f : Int)
    (hlo : -((2 : Int) ^ (E.int_bits - 1)) ≤ f - 32) (hhi : f < (2 : Int) ^ (E.int_bits - 1)) :
    ((32 ≤ f ∧ f < 125032) ∨ (-124968 < f ∧ f ≤ 0) → c_to_f E (f_to_c f) = f) ∧
    (1 ≤ f ∧ f ≤ 31 → c_to_f E (f_to_c f) = f - 1) := by
  constructor
  · intro hf
    have ht : trunc ((f : ℚ) + ((f : ℚ) - 32) / 125000) = f := by
      unfold trunc
      rcases hf with ⟨h1, h2⟩ | ⟨h1, h2⟩
      · have c1 : (32 : ℚ) ≤ f := by exact_mod_cast h1
        have c2 : (f : ℚ) < 125032 := by exact_mod_cast h2
        rw [if_pos (by linarith), Int.floor_eq_iff]
        constructor <;> linarith
      · have c1 : (-124968 : ℚ) < f := by exact_mod_cast h1
        have c2 : (f : ℚ) ≤ 0 := by exact_mod_cast h2
        rw [if_neg (by linarith), Int.ceil_eq_iff]
        constructor <;> linarith
    rw [c_to_f_f_to_c, float_to_int_of_fits E _ (by rw [ht]; constructor <;> linarith)]
    exact ht
  · rintro ⟨h1, h2⟩
    have ht : trunc ((f : ℚ) + ((f : ℚ) - 32) / 125000) = f - 1 := by
      unfold trunc
      have c1 : (1 : ℚ) ≤ f := by exact_mod_cast h1
      have c2 : (f : ℚ) ≤ 31 := by exact_mod_cast h2
      rw [if_pos (by linarith), Int.floor_eq_iff]
      push_cast
      constructor <;> linarith
    rw [c_to_f_f_to_c, float_to_int_of_fits E _ (by rw [ht]; constructor <;> linarith)]
    exact ht

/-- C18 (witness): with a 16-bit `int`, 72 comes back as 72 and 31 as 30. -/
theorem f_to_c_round_trip_witness :
    -((2 : Int) ^ (sample_env.int_bits - 1)) ≤ 72 - 32 ∧
    (72 : Int) < (2 : Int) ^ (sample_env.int_bits - 1) ∧
    c_to_f sample_env (f_to_c 72) = 72 :=
  ⟨by decide, by decide,
    (f_to_c_round_trip sample_env 72 (by decide) (by decide)).1 (Or.inl ⟨by decide, by decide⟩)⟩

/-! ## The NaN guard of read_temp_f -/

/-- C20: when the object is not simulating, `read_temp_f` returns NaN itself when the reading
of `read_temp_c` (the reading after the one retry) is NaN, without converting it; for every
other reading it returns `c_to_f` of the reading converted back to floating point, an
integer value, which for a finite reading is the reading times 1.8 plus 32 truncated toward
zero whenever that fits in `int`. -/
theorem read_temp_f_nan_guard (E : Env) (t : CTempHum) (h : Adafruit_SHT31)
    (hsim : t.m_is_simulated = false) :
    ((CTempHum.read_temp_c h).1 = FloatVal.nan →
      (CTempHum.read_temp_f E t h).1 = FloatVal.nan) ∧
    ((CTempHum.read_temp_c h).1 ≠ FloatVal.nan →
      (CTempHum.read_temp_f E t h).1
        = FloatVal.ofInt (c_to_f E (CTempHum.read_temp_c h).1)) ∧
    (∀ q, (CTempHum.read_temp_c h).1 = FloatVal.val q →
      -((2 : Int) ^ (E.int_bits - 1)) ≤ trunc (q * (18 / 10) + 32) →
      trunc (q * (18 / 10) + 32) < (2 : Int) ^ (E.int_bits - 1) →
      (CTempHum.read_temp_f E t h).1 = FloatVal.ofInt (trunc (q * (18 / 10) + 32))) := by
  refine ⟨?_, ?_, ?_⟩
  · intro hnan
    simp [CTempHum.read_temp_f, hsim, hnan, FloatVal.isnan]
  · intro hnum
    have hn : (CTempHum.read_temp_c h).1.isnan = false := by
      cases hr : (CTempHum.read_temp_c h).1 with
      | nan => exact absurd hr hnum
      | inf n => rfl
      | val q => rfl
    simp [CTempHum.read_temp_f, hsim, hn]
  · intro q hq hlo hhi
    have hc : c_to_f E (FloatVal.val q) = trunc (q * (18 / 10) + 32) := by
      simp only [c_to_f, FloatVal.mul, FloatVal.add]
      exact float_to_int_of_fits E _ ⟨hlo, hhi⟩
    simp [CTempHum.read_temp_f, hsim, hq, FloatVal.isnan, hc]

/-- C20 (witness): a sensor that keeps failing makes `read_temp_f` return NaN. -/
theorem read_temp_f_nan_guard_witness :
    sample_device.TempHum.m_is_simulated = false ∧
    (CTempHum.read_temp_c sample_sht31_failing).1 = FloatVal.nan ∧
    (CTempHum.read_temp_f sample_env sample_device.TempHum sample_sht31_failing).1
      = FloatVal.nan :=
  ⟨rfl, rfl,
    (read_temp_f_nan_guard sample_env sample_device.TempHum sample_sht31_failing rfl).1 rfl⟩

end BORC
